import Mathlib

/-!
Shallow embedding of the t2macd fan-control daemon (src/main.rs) and
verification of its specification claims.

Modelling conventions:
- Rust `u32` values are `Nat`; arithmetic that can wrap in release builds is
  taken modulo `2 ^ 32` explicitly (`wrapSub`, final `% u32Mod`); operations
  that always abort the process in Rust (integer division by zero,
  `.unwrap()` on a parse failure) return `none` / a dedicated `panicked`
  result.
- The filesystem visible through `std::fs` is a map from path strings to a
  `FileResult` (content or one of the error kinds `Config::read`
  distinguishes) together with a writability predicate; `fs::write` replaces
  the content of a writable path and fails on a non-writable one.
- `glob::glob` is an environment parameter `g : String → List String` giving
  the (ordered) matches of a pattern; `serde_json` serialization of `Config`
  is a parameter pair `parse` / `serialize`, since it is library code outside
  this repository.
-/

set_option autoImplicit false

namespace T2macd

/-- `2 ^ 32`, the modulus of Rust `u32` arithmetic. -/
def u32Mod : Nat := 4294967296

/-- Wrapping `u32` subtraction `a - b` as in a Rust release build
(`a`, `b` are `u32` values, i.e. `< u32Mod`). -/
def wrapSub (a b : Nat) : Nat := (a + u32Mod - b) % u32Mod

/-- Fan speed curve kinds (main.rs lines 26-29; the only variant is LINEAR). -/
inductive FanCurve
  | LINEAR
deriving DecidableEq

/-- The persisted configuration record (main.rs lines 39-44). -/
structure Config where
  fan_curve : FanCurve
  min_temp : Nat
  max_temp : Nat
deriving DecidableEq

/-- Error taxonomy of the configuration store (main.rs lines 31-37). -/
inductive ConfigError
  | IoError
  | ParseError
  | WriteError
  | NotFound
deriving DecidableEq

/-- Outcome of `fs::read_to_string` on one path: the error kinds that
`Config::read` distinguishes, or the file content (as a character list). -/
inductive FileResult
  | notFound
  | permissionDenied
  | otherIoErr
  | content (s : List Char)
deriving DecidableEq

/-- The filesystem as seen through `std::fs`: what each path currently reads
as, and which paths accept writes. -/
structure FS where
  read : String → FileResult
  writable : String → Bool

/-- `fs::write`: succeeds iff the path is writable, replacing that path's
content and leaving every other path untouched. -/
def FS.writeFile (fs : FS) (p : String) (s : List Char) : Option FS :=
  if fs.writable p then
    some { fs with read := fun q => if q = p then .content s else fs.read q }
  else
    none

/-- The default configuration built in both fallback branches of
`Config::get` (main.rs lines 52-56 and 67-71). -/
def defaultConfig : Config :=
  { fan_curve := .LINEAR, min_temp := 80, max_temp := 100 }

/-- `Config::read` (main.rs lines 87-107): read the file, mapping
`PermissionDenied` and any other io error to `IoError`, a missing file to
`NotFound`, and a `serde_json` parse failure to `ParseError`. -/
def Config.read (parse : List Char → Option Config) (fs : FS) (p : String) :
    Except ConfigError Config :=
  match fs.read p with
  | .notFound => .error .NotFound
  | .permissionDenied => .error .IoError
  | .otherIoErr => .error .IoError
  | .content s =>
    match parse s with
    | some c => .ok c
    | none => .error .ParseError

/-- `Config::write` (main.rs lines 80-85): serialize and `fs::write`,
mapping a write failure to `WriteError`. Returns the updated filesystem on
success. -/
def Config.write (serialize : Config → List Char) (c : Config) (fs : FS)
    (p : String) : Except ConfigError FS :=
  match fs.writeFile p (serialize c) with
  | some fs2 => .ok fs2
  | none => .error .WriteError

/-- `Config::get` (main.rs lines 47-78). `none` models the
`panic!("This should never happen")` arm; otherwise the result carries the
returned `Config` together with the filesystem after any side effect:
- file read and parsed: return it, filesystem untouched;
- `NotFound`: build the default, attempt to persist it (a failed write is
  only logged), return the default;
- `IoError`: propagated to the caller;
- `ParseError`: log and return the default, filesystem untouched. -/
def Config.get (parse : List Char → Option Config)
    (serialize : Config → List Char) (fs : FS) (p : String) :
    Option (Except ConfigError (Config × FS)) :=
  match Config.read parse fs p with
  | .ok config => some (.ok (config, fs))
  | .error e =>
    match e with
    | .NotFound =>
      match Config.write serialize defaultConfig fs p with
      | .ok fs2 => some (.ok (defaultConfig, fs2))
      | .error _ => some (.ok (defaultConfig, fs))
    | .IoError => some (.error .IoError)
    | .ParseError => some (.ok (defaultConfig, fs))
    | .WriteError => none

/-- One hardware fan (main.rs lines 110-115). -/
structure Fan where
  path : String
  max_speed : Nat
  min_speed : Nat
  speed_curve : FanCurve
deriving DecidableEq

/-- `Path::join` for the sysfs attribute files of a fan. -/
def pathJoin (p : String) (f : String) : String := p ++ "/" ++ f

/-- Accumulator pass of `str::parse::<u32>` over the digit characters. -/
def digitsToNatAux : Nat → List Char → Option Nat
  | acc, [] => some acc
  | acc, c :: cs =>
    if c.isDigit then digitsToNatAux (acc * 10 + (c.toNat - 48)) cs else none

/-- `str::parse::<u32>` on a file content: fails on an empty string, on any
non-digit character (including a trailing newline) and on overflow past
`u32::MAX`; the optional leading sign accepted by Rust is not modelled. -/
def parseU32 (s : List Char) : Option Nat :=
  match s with
  | [] => none
  | _ =>
    match digitsToNatAux 0 s with
    | some n => if n < u32Mod then some n else none
    | none => none

/-- `u32::to_string`, producing file content for the speed write. -/
def natToContent (n : Nat) : List Char := Nat.toDigits 10 n

/-- `Fan::calc_speed` (main.rs lines 137-145), LINEAR arm:
`(current_temp - config.min_temp) / (config.max_temp - config.min_temp)
 * (self.max_speed - self.max_speed) + self.min_speed`
in `u32` arithmetic. Division by zero aborts the process (`none`);
subtraction and the final sum wrap as in a release build. -/
def Fan.calc_speed (fan : Fan) (current_temp : Nat) (config : Config) :
    Option Nat :=
  match fan.speed_curve with
  | .LINEAR =>
    let d := wrapSub config.max_temp config.min_temp
    if d = 0 then none
    else
      some ((wrapSub current_temp config.min_temp / d
        * wrapSub fan.max_speed fan.max_speed % u32Mod
        + fan.min_speed) % u32Mod)

/-- `Fan::set_speed` (main.rs lines 133-135): write the decimal speed to the
fan's `_output` attribute file; an io failure is reported as an error. -/
def Fan.set_speed (fan : Fan) (speed : Nat) (fs : FS) : Except Unit FS :=
  match fs.writeFile (pathJoin fan.path "_output") (natToContent speed) with
  | some fs2 => .ok fs2
  | none => .error ()

/-- `Fan::new` (main.rs lines 118-131): read and parse `_max` and `_min`,
then write `"1"` to `_manual`. An io error on any of the three files is
propagated as `.error`; a parse failure on a bound file is an `.unwrap`
abort (`none`). -/
def Fan.new (config : Config) (fs : FS) (path : String) :
    Option (Except Unit (Fan × FS)) :=
  match fs.read (pathJoin path "_max") with
  | .content smax =>
    match parseU32 smax with
    | some maxSpeed =>
      match fs.read (pathJoin path "_min") with
      | .content smin =>
        match parseU32 smin with
        | some minSpeed =>
          match fs.writeFile (pathJoin path "_manual") ['1'] with
          | some fs2 =>
            some (.ok
              ({ path := path, max_speed := maxSpeed, min_speed := minSpeed,
                 speed_curve := config.fan_curve }, fs2))
          | none => some (.error ())
        | none => none
      | _ => some (.error ())
    | none => none
  | _ => some (.error ())

/-- The glob pattern of `init_fans` (main.rs line 150). -/
def fanGlobPattern : String := "/sys/devices/*/*/*/*/APP0001:00/fan*_input"

/-- `String::truncate(len - 6)`: drop the trailing `"_input"` from a matched
fan path (main.rs line 152). -/
def truncate6 (s : String) : String := String.mk (s.data.take (s.data.length - 6))

/-- The loop body of `init_fans` over the remaining glob matches, threading
the filesystem and accumulating constructed fans in match order. -/
def initFansLoop (config : Config) :
    List String → FS → List Fan → Option (Except Unit (List Fan × FS))
  | [], fs, acc => some (.ok (acc.reverse, fs))
  | p :: ps, fs, acc =>
    match Fan.new config fs (truncate6 p) with
    | none => none
    | some (.error e) => some (.error e)
    | some (.ok (fan, fs2)) => initFansLoop config ps fs2 (fan :: acc)

/-- `init_fans` (main.rs lines 148-157): glob for fan input files, strip the
`"_input"` suffix from each match and construct a `Fan` for it. -/
def init_fans (g : String → List String) (config : Config) (fs : FS) :
    Option (Except Unit (List Fan × FS)) :=
  initFansLoop config (g fanGlobPattern) fs []

/-- The CPU temperature glob pattern (main.rs line 161). -/
def cpuTempPattern : String :=
  "/sys/devices/platform/coretemp.0/hwmon/hwmon*/temp1_input"

/-- The GPU temperature path (main.rs line 170). In the source this pattern
is never passed to `glob`: it is used verbatim as a path, asterisk included. -/
def gpuTempPath : String :=
  "/sys/class/drm/card0/device/hwmon/hwmon*/temp1_input"

/-- The `for path in glob(..)` loop of `get_current_temp` (main.rs lines
160-163): `cpu_temp_path` starts as the empty default and is overwritten by
every match, so it ends as the last match (or stays empty). -/
def lastMatch (l : List String) : String := l.foldl (fun _ p => p) ""

/-- `get_current_temp` (main.rs lines 159-182): read and parse the CPU
temperature from the last glob match of `cpuTempPattern`, read and parse the
GPU temperature from the literal path `gpuTempPath` (no glob), and return
the larger reading. Every failure is a process abort (`none`). -/
def get_current_temp (g : String → List String) (fs : FS) : Option Nat :=
  let cpu_temp_path := lastMatch (g cpuTempPattern)
  match fs.read cpu_temp_path with
  | .content scpu =>
    match parseU32 scpu with
    | some cpu_temp =>
      match fs.read gpuTempPath with
      | .content sgpu =>
        match parseU32 sgpu with
        | some gpu_temp =>
          some (if gpu_temp > cpu_temp then gpu_temp else cpu_temp)
        | none => none
      | _ => none
    | none => none
  | _ => none

/-- `check_supported_env` (main.rs lines 184-192): only Linux is supported. -/
def check_supported_env (os : String) : Bool := os == "linux"

/-- The config file path used by `main` (main.rs line 199). -/
def configPath : String := "/etc/t2macd.json"

/-- The process environment `main` runs against. -/
structure Env where
  os : String
  g : String → List String
  parse : List Char → Option Config
  serialize : Config → List Char
  fs : FS

/-- How `main` (main.rs lines 194-216) terminates: a process exit code, a
process abort, or entry into the unbounded control loop with the fans,
config and filesystem state at entry. -/
inductive MainResult
  | exited (code : Nat)
  | panicked
  | running (fans : List Fan) (config : Config) (fs : FS)

/-- `main` (main.rs lines 194-216) up to the control loop: exit 2 off Linux;
load the config (`.unwrap()` aborts on `Err`); initialize fans (an `Err`
aborts via an explicit abort); exit 1 when no fans were found; otherwise
enter the unbounded loop. -/
def mainModel (env : Env) : MainResult :=
  if !check_supported_env env.os then .exited 2
  else
    match Config.get env.parse env.serialize env.fs configPath with
    | none => .panicked
    | some (.error _) => .panicked
    | some (.ok (config, fs1)) =>
      match init_fans env.g config fs1 with
      | none => .panicked
      | some (.error _) => .panicked
      | some (.ok (fans, fs2)) =>
        if fans.length = 0 then .exited 1
        else .running fans config fs2

/-- One pass of `for fan in &fans` in the control loop (main.rs lines
209-214): for each fan read the current temperature, compute the target
speed and write it; a write failure is only logged (`false` in the outcome
list) and the pass moves on to the next fan. A temperature-read or
curve abort (`none`) ends the process. -/
def loopIteration (g : String → List String) (config : Config) :
    List Fan → FS → Option (List Bool × FS)
  | [], fs => some ([], fs)
  | fan :: rest, fs =>
    match get_current_temp g fs with
    | none => none
    | some temp =>
      match fan.calc_speed temp config with
      | none => none
      | some speed =>
        match fan.set_speed speed fs with
        | .ok fs2 =>
          match loopIteration g config rest fs2 with
          | none => none
          | some (outs, fs3) => some (true :: outs, fs3)
        | .error _ =>
          match loopIteration g config rest fs with
          | none => none
          | some (outs, fs3) => some (false :: outs, fs3)

/-- `n` iterations of the unbounded `loop` of `main` (main.rs lines
208-215). -/
def runIterations (g : String → List String) (config : Config)
    (fans : List Fan) : Nat → FS → Option FS
  | 0, fs => some fs
  | n + 1, fs =>
    match loopIteration g config fans fs with
    | none => none
    | some (_, fs2) => runIterations g config fans n fs2

/-- The filesystem state written by the `NotFound` branch of `Config::get`:
the serialized default stored at `p`, everything else untouched. -/
def persistedDefault (serialize : Config → List Char) (fs : FS) (p : String) :
    FS :=
  { fs with
    read := fun q => if q = p then .content (serialize defaultConfig)
                     else fs.read q }

/-! Concrete environments used by the witness theorems. -/

/-- A parse model that rejects every file content. -/
def wParseNone : List Char → Option Config := fun _ => none

/-- A parse model that accepts exactly the content `"d"` as the default
config. -/
def wParseD : List Char → Option Config :=
  fun s => if s = ['d'] then some defaultConfig else none

/-- A serialization model writing the content `"d"` for every config. -/
def wSerD : Config → List Char := fun _ => ['d']

/-- A parse model that accepts exactly the content `"80"` as the
degenerate config with `min_temp = max_temp = 80`. -/
def wParse80 : List Char → Option Config :=
  fun s => if s = ['8', '0'] then some ⟨.LINEAR, 80, 80⟩ else none

/-- A filesystem whose config file holds unparseable content. -/
def wFsCorrupt : FS :=
  { read := fun q => if q = configPath then .content ['g'] else .notFound
    writable := fun _ => true }

/-- A filesystem with no config file, every path writable. -/
def wFsAbsent : FS :=
  { read := fun _ => .notFound, writable := fun _ => true }

/-- A filesystem whose config file holds the content `"80"`. -/
def wFs80 : FS :=
  { read := fun q => if q = configPath then .content ['8', '0'] else .notFound
    writable := fun _ => false }

/-- A parse model that accepts every content as the default config. -/
def wParseAny : List Char → Option Config := fun _ => some defaultConfig

/-- A glob model where the CPU pattern matches two files. -/
def wGlobMulti : String → List String :=
  fun s => if s = cpuTempPattern then ["cpu0", "cpu1"] else []

/-- A filesystem for the two-CPU-matches scenario: both matched files and
the literal (asterisk-containing) GPU path hold parseable integers. -/
def wFsCpuMulti : FS :=
  { read := fun q =>
      if q = "cpu0" then .content ['1', '0']
      else if q = "cpu1" then .content ['2', '0']
      else if q = gpuTempPath then .content ['3', '0']
      else .notFound
    writable := fun _ => true }

/-- A glob model where the CPU pattern matches one file and the GPU
pattern also matches exactly one file. -/
def wGlobGpuOne : String → List String :=
  fun s =>
    if s = cpuTempPattern then ["cpu0"]
    else if s = gpuTempPath then ["gpu0"] else []

/-- A filesystem where the single file matching the GPU pattern holds a
parseable integer but nothing exists at the literal GPU path. -/
def wFsGpuOne : FS :=
  { read := fun q =>
      if q = "cpu0" then .content ['7', '0']
      else if q = "gpu0" then .content ['8', '5']
      else .notFound
    writable := fun _ => true }

/-- A glob model where only the CPU pattern matches (one file). -/
def wGlobC7 : String → List String :=
  fun s => if s = cpuTempPattern then ["cpu0"] else []

/-- A filesystem where the CPU file reads 70 and the literal GPU path
reads 85. -/
def wFsC7 : FS :=
  { read := fun q =>
      if q = "cpu0" then .content ['7', '0']
      else if q = gpuTempPath then .content ['8', '5']
      else .notFound
    writable := fun _ => true }

/-- The environment of the unsupported-platform scenario. -/
def wEnvMac : Env :=
  { os := "mac", g := fun _ => [], parse := wParseNone, serialize := wSerD,
    fs := wFsAbsent }

/-- The environment of the no-fans scenario: Linux, a parseable config
file, and no glob match for the fan pattern. -/
def wEnvNoFans : Env :=
  { os := "linux", g := fun _ => [], parse := wParseAny, serialize := wSerD,
    fs := wFsCorrupt }

/-- A fan whose `_output` file rejects writes in `wFsLoop`. -/
def wFanA : Fan := ⟨"fanA", 2000, 1000, .LINEAR⟩

/-- A fan whose `_output` file accepts writes in `wFsLoop`. -/
def wFanB : Fan := ⟨"fanB", 2000, 1000, .LINEAR⟩

/-- A filesystem for the control-loop scenario: temperatures readable,
only `wFanB`'s output file writable. -/
def wFsLoop : FS :=
  { read := fun q =>
      if q = "cpu0" then .content ['7', '0']
      else if q = gpuTempPath then .content ['8', '5']
      else .notFound
    writable := fun q => q == "fanB/_output" }

section Lemmas

/-- Wrapping subtraction of a `u32` value from itself is zero. -/
theorem wrapSub_self (a : Nat) : wrapSub a a = 0 := by
  simp [wrapSub]

/-- Wrapping subtraction agrees with truncated subtraction on ordered `u32`
values. -/
theorem wrapSub_of_le {a b : Nat} (h : b ≤ a) (ha : a < u32Mod) :
    wrapSub a b = a - b := by
  unfold wrapSub u32Mod at *
  omega

end Lemmas

/-- C1: with `configMinTemp < configMaxTemp` and `currentTemp ≥
configMinTemp`, the LINEAR curve of `Fan::calc_speed` returns the fan's
`min_speed` whatever `currentTemp` is: the factor
`(max_speed - max_speed)` is zero, so the whole interpolation term
vanishes. -/
theorem calc_speed_linear_constant (fan : Fan) (config : Config) (t : Nat)
    (hlt : config.min_temp < config.max_temp)
    (hmax : config.max_temp < u32Mod) (hms : fan.min_speed < u32Mod)
    (_ht : config.min_temp ≤ t) :
    fan.calc_speed t config = some fan.min_speed := by
  obtain ⟨p, maxS, minS, sc⟩ := fan
  cases sc
  have hd : wrapSub config.max_temp config.min_temp ≠ 0 := by
    rw [wrapSub_of_le (Nat.le_of_lt hlt) hmax]
    omega
  simp only [Fan.calc_speed, hd, if_false, wrapSub_self]
  simp [Nat.mod_eq_of_lt hms]

/-- C1 witness: a concrete fan with bounds 1000/2000 under the default
config at temperature 90 gets speed 1000. -/
theorem calc_speed_linear_constant_witness :
    Fan.calc_speed ⟨"fan1", 2000, 1000, .LINEAR⟩ 90 defaultConfig =
      some 1000 :=
  calc_speed_linear_constant ⟨"fan1", 2000, 1000, .LINEAR⟩ defaultConfig 90
    (by decide) (by decide) (by decide) (by decide)

/-- C2 (code bug evaluation): at `currentTemp = configMaxTemp = 100` the
fan with `min_speed = 1000`, `max_speed = 2000` gets speed 1000, not the
claimed `max_speed = 2000`: the defective `(max_speed - max_speed)` factor
collapses the curve. -/
theorem calc_speed_at_max_temp_eval :
    Fan.calc_speed ⟨"fan1", 2000, 1000, .LINEAR⟩ 100 defaultConfig =
        some 1000 ∧
      Fan.calc_speed ⟨"fan1", 2000, 1000, .LINEAR⟩ 100 defaultConfig ≠
        some 2000 := by
  constructor
  · decide
  · decide

/-- C3 (code bug evaluation): above `configMaxTemp` (temperature 120) the
fan with `min_speed = 1000`, `max_speed = 2000` gets speed 1000, not the
claimed clamp to `max_speed = 2000`; below `configMinTemp` (temperature
50, where the `u32` subtraction wraps) it also gets 1000. -/
theorem calc_speed_above_max_temp_eval :
    Fan.calc_speed ⟨"fan1", 2000, 1000, .LINEAR⟩ 120 defaultConfig =
        some 1000 ∧
      Fan.calc_speed ⟨"fan1", 2000, 1000, .LINEAR⟩ 120 defaultConfig ≠
        some 2000 ∧
      Fan.calc_speed ⟨"fan1", 2000, 1000, .LINEAR⟩ 50 defaultConfig =
        some 1000 := by
  refine ⟨by decide, by decide, by decide⟩

/-- C10: `Config::get` performs no validation of `min_temp < max_temp`: a
file that parses to a config with `min_temp = max_temp` is returned
unchanged, and any later `Fan::calc_speed` call on that config divides by
`(max_temp - min_temp) = 0` and aborts the process (`none`). -/
theorem config_get_accepts_degenerate (parse : List Char → Option Config)
    (serialize : Config → List Char) (fs : FS) (p : String) (s : List Char)
    (cfg : Config) (fan : Fan) (t : Nat)
    (hread : fs.read p = .content s) (hparse : parse s = some cfg)
    (heq : cfg.min_temp = cfg.max_temp) :
    Config.get parse serialize fs p = some (.ok (cfg, fs)) ∧
      fan.calc_speed t cfg = none := by
  constructor
  · simp [Config.get, Config.read, hread, hparse]
  · obtain ⟨fp, maxS, minS, sc⟩ := fan
    cases sc
    simp [Fan.calc_speed, ← heq, wrapSub_self]

/-- C10 witness: the concrete file content `"80"` parsing to the config
`min_temp = max_temp = 80` is returned as-is, and `calc_speed` on it
aborts. -/
theorem config_get_accepts_degenerate_witness :
    Config.get wParse80 wSerD wFs80 configPath =
        some (.ok (⟨.LINEAR, 80, 80⟩, wFs80)) ∧
      Fan.calc_speed ⟨"fan1", 2000, 1000, .LINEAR⟩ 90 ⟨.LINEAR, 80, 80⟩ =
        none :=
  config_get_accepts_degenerate wParse80 wSerD wFs80 configPath
    ['8', '0'] ⟨.LINEAR, 80, 80⟩ ⟨"fan1", 2000, 1000, .LINEAR⟩ 90
    (by decide) (by decide) (by decide)

/-- C4: when the config file exists but does not parse, `Config::get`
returns the default config and the filesystem is returned untouched: the
malformed content is still on disk. -/
theorem config_get_parse_error_preserves (parse : List Char → Option Config)
    (serialize : Config → List Char) (fs : FS) (p : String) (s : List Char)
    (hread : fs.read p = .content s) (hparse : parse s = none) :
    Config.get parse serialize fs p = some (.ok (defaultConfig, fs)) ∧
      fs.read p = .content s := by
  constructor
  · simp [Config.get, Config.read, hread, hparse]
  · exact hread

/-- C4 witness: a config file holding the unparseable content `"g"` yields
the default config and the same filesystem. -/
theorem config_get_parse_error_preserves_witness :
    Config.get wParseNone wSerD wFsCorrupt configPath =
        some (.ok (defaultConfig, wFsCorrupt)) ∧
      wFsCorrupt.read configPath = .content ['g'] :=
  config_get_parse_error_preserves wParseNone wSerD wFsCorrupt configPath
    ['g'] (by decide) (by decide)

/-- C5: when no config file exists, `Config::get` returns the default
config in every case: unchanged filesystem when the write fails, and the
persisted default when the write succeeds; in the latter case, as long as
parsing inverts serialization on the default config, a second
`Config::get` returns the identical config and changes nothing further. -/
theorem config_get_absent_creates_default
    (parse : List Char → Option Config) (serialize : Config → List Char)
    (fs : FS) (p : String) (hread : fs.read p = .notFound) :
    (fs.writable p = false →
      Config.get parse serialize fs p = some (.ok (defaultConfig, fs))) ∧
      (fs.writable p = true →
        Config.get parse serialize fs p =
            some (.ok (defaultConfig, persistedDefault serialize fs p)) ∧
          (parse (serialize defaultConfig) = some defaultConfig →
            Config.get parse serialize (persistedDefault serialize fs p) p =
              some (.ok (defaultConfig, persistedDefault serialize fs p)))) := by
  refine ⟨fun hw => ?_, fun hw => ⟨?_, fun hparse => ?_⟩⟩
  · simp [Config.get, Config.read, Config.write, FS.writeFile, hread, hw]
  · simp [Config.get, Config.read, Config.write, FS.writeFile, hread, hw,
      persistedDefault]
  · simp [Config.get, Config.read, persistedDefault, hparse]

/-- C5 witness: on a filesystem with no config file and a writable path,
the default is returned and persisted, and a second load returns the
identical config. -/
theorem config_get_absent_creates_default_witness :
    Config.get wParseD wSerD wFsAbsent configPath =
        some (.ok (defaultConfig, persistedDefault wSerD wFsAbsent configPath)) ∧
      Config.get wParseD wSerD (persistedDefault wSerD wFsAbsent configPath)
          configPath =
        some (.ok (defaultConfig, persistedDefault wSerD wFsAbsent configPath)) := by
  have h := config_get_absent_creates_default wParseD wSerD wFsAbsent
    configPath (by decide)
  exact ⟨(h.2 (by decide)).1, (h.2 (by decide)).2 (by decide)⟩

/-- C6 (code bug evaluation): `get_current_temp` does not fail when the
CPU pattern matches more than one file — it silently uses the last match
(readings 10 and 20 with GPU 30 succeed with 30) — and it never resolves
the GPU pattern at all: even when the GPU pattern matches exactly one file
with parseable content 85, the read of the literal asterisk-containing
path fails and the process aborts. -/
theorem get_current_temp_glob_eval :
    get_current_temp wGlobMulti wFsCpuMulti = some 30 ∧
      wGlobMulti cpuTempPattern = ["cpu0", "cpu1"] ∧
      get_current_temp wGlobGpuOne wFsGpuOne = none ∧
      wGlobGpuOne gpuTempPath = ["gpu0"] ∧
      wFsGpuOne.read "gpu0" = .content ['8', '5'] := by
  refine ⟨by decide, by decide, by decide, by decide, by decide⟩

/-- C7: whenever both sensor reads succeed (the last CPU glob match parses
to `ct` and the literal GPU path parses to `gt`), `get_current_temp`
returns the maximum of the two readings. -/
theorem get_current_temp_is_max (g : String → List String) (fs : FS)
    (scpu sgpu : List Char) (ct gt : Nat)
    (hc : fs.read (lastMatch (g cpuTempPattern)) = .content scpu)
    (hct : parseU32 scpu = some ct)
    (hg : fs.read gpuTempPath = .content sgpu)
    (hgt : parseU32 sgpu = some gt) :
    get_current_temp g fs = some (max ct gt) := by
  have hmax : (if gt > ct then gt else ct) = max ct gt := by
    split <;> omega
  simp only [get_current_temp, hc, hct, hg, hgt, hmax]

/-- C7 witness: CPU reading 70 and GPU reading 85 yield effective
temperature 85. -/
theorem get_current_temp_is_max_witness :
    get_current_temp wGlobC7 wFsC7 = some 85 := by
  have h := get_current_temp_is_max wGlobC7 wFsC7 ['7', '0'] ['8', '5']
    70 85 (by decide) (by decide) (by decide) (by decide)
  exact h.trans (by decide)

/-- C8: `main` exits with status 2 on a non-Linux platform (for every
environment, hence before the configuration is ever consulted); exits with
status 1 when fan discovery succeeds with zero fans, never entering the
loop; and no environment makes it return exit status 0. -/
theorem main_exit_code_contract (env : Env) :
    (check_supported_env env.os = false → mainModel env = .exited 2) ∧
      (∀ (config : Config) (fs1 fs2 : FS),
        check_supported_env env.os = true →
        Config.get env.parse env.serialize env.fs configPath =
          some (.ok (config, fs1)) →
        init_fans env.g config fs1 = some (.ok ([], fs2)) →
        mainModel env = .exited 1) ∧
      mainModel env ≠ .exited 0 := by
  refine ⟨fun h => ?_, fun config fs1 fs2 h1 h2 h3 => ?_, ?_⟩
  · simp [mainModel, h]
  · simp [mainModel, h1, h2, h3]
  · intro hcontra
    unfold mainModel at hcontra
    repeat' split at hcontra
    all_goals simp at hcontra

/-- C8 witness: a macOS environment exits 2; a Linux environment with a
parseable config and no fan glob matches exits 1. -/
theorem main_exit_code_contract_witness :
    mainModel wEnvMac = .exited 2 ∧ mainModel wEnvNoFans = .exited 1 := by
  refine ⟨(main_exit_code_contract wEnvMac).1 (by decide),
    (main_exit_code_contract wEnvNoFans).2.1 defaultConfig wFsCorrupt
      wFsCorrupt (by decide) rfl rfl⟩

section LoopLemmas

/-- A successful `fs::write` leaves every other path's content unchanged. -/
theorem FS.writeFile_read_ne {fs fs2 : FS} {p : String} {s : List Char}
    (h : fs.writeFile p s = some fs2) {q : String} (hq : q ≠ p) :
    fs2.read q = fs.read q := by
  unfold FS.writeFile at h
  split at h
  · cases h
    simp [hq]
  · simp at h

/-- A successful `Fan::set_speed` leaves every path other than the fan's
`_output` file unchanged. -/
theorem set_speed_read_ne {fan : Fan} {sp : Nat} {fs fs2 : FS}
    (h : fan.set_speed sp fs = .ok fs2) {q : String}
    (hq : q ≠ pathJoin fan.path "_output") : fs2.read q = fs.read q := by
  unfold Fan.set_speed at h
  split at h
  · cases h
    exact FS.writeFile_read_ne (by assumption) hq
  · simp at h

/-- `get_current_temp` only looks at the CPU path and the literal GPU
path. -/
theorem get_current_temp_congr (g : String → List String) {fs fs2 : FS}
    (h1 : fs2.read (lastMatch (g cpuTempPattern)) =
      fs.read (lastMatch (g cpuTempPattern)))
    (h2 : fs2.read gpuTempPath = fs.read gpuTempPath) :
    get_current_temp g fs2 = get_current_temp g fs := by
  simp only [get_current_temp, h1, h2]

/-- As long as the curve's divisor is nonzero, `Fan::calc_speed` never
aborts. -/
theorem calc_speed_total (fan : Fan) (t : Nat) (config : Config)
    (hcurve : wrapSub config.max_temp config.min_temp ≠ 0) :
    ∃ sp, fan.calc_speed t config = some sp := by
  cases hsc : fan.speed_curve
  refine ⟨(wrapSub t config.min_temp / wrapSub config.max_temp config.min_temp
    * wrapSub fan.max_speed fan.max_speed % u32Mod + fan.min_speed) %
      u32Mod, ?_⟩
  simp only [Fan.calc_speed, hsc]
  rw [if_neg hcurve]

/-- One control-loop pass processes every fan in order, whatever pattern
of `set_speed` failures occurs, and touches only `_output` files: the
sensor paths read the same before and after, provided the temperature is
readable, the curve divisor is nonzero, and no sensor path doubles as an
`_output` file. -/
theorem loopIteration_all (g : String → List String) (config : Config)
    (hcurve : wrapSub config.max_temp config.min_temp ≠ 0) :
    ∀ (fans : List Fan) (fs : FS),
      lastMatch (g cpuTempPattern) ∉
        fans.map (fun f => pathJoin f.path "_output") →
      gpuTempPath ∉ fans.map (fun f => pathJoin f.path "_output") →
      (get_current_temp g fs).isSome →
      ∃ outs fs2, loopIteration g config fans fs = some (outs, fs2) ∧
        outs.length = fans.length ∧
        fs2.read (lastMatch (g cpuTempPattern)) =
          fs.read (lastMatch (g cpuTempPattern)) ∧
        fs2.read gpuTempPath = fs.read gpuTempPath := by
  intro fans
  induction fans with
  | nil =>
    intro fs _ _ _
    exact ⟨[], fs, rfl, rfl, rfl, rfl⟩
  | cons fan rest ih =>
    intro fs hcpu hgpu htemp
    simp only [List.map_cons, List.mem_cons, not_or] at hcpu hgpu
    obtain ⟨hcpu1, hcpu2⟩ := hcpu
    obtain ⟨hgpu1, hgpu2⟩ := hgpu
    obtain ⟨t, ht⟩ := Option.isSome_iff_exists.mp htemp
    obtain ⟨sp, hsp⟩ := calc_speed_total fan t config hcurve
    cases hss : fan.set_speed sp fs with
    | ok fs2 =>
      have hr1 : fs2.read (lastMatch (g cpuTempPattern)) =
          fs.read (lastMatch (g cpuTempPattern)) :=
        set_speed_read_ne hss hcpu1
      have hr2 : fs2.read gpuTempPath = fs.read gpuTempPath :=
        set_speed_read_ne hss hgpu1
      have htemp2 : (get_current_temp g fs2).isSome := by
        rw [get_current_temp_congr g hr1 hr2]
        exact htemp
      obtain ⟨outs, fs3, hloop, hlen, hp1, hp2⟩ := ih fs2 hcpu2 hgpu2 htemp2
      refine ⟨true :: outs, fs3, ?_, by simp [hlen], hp1.trans hr1,
        hp2.trans hr2⟩
      simp only [loopIteration, ht, hsp, hss, hloop]
    | error e =>
      obtain ⟨outs, fs3, hloop, hlen, hp1, hp2⟩ := ih fs hcpu2 hgpu2 htemp
      refine ⟨false :: outs, fs3, ?_, by simp [hlen], hp1, hp2⟩
      simp only [loopIteration, ht, hsp, hss, hloop]

/-- Under the same conditions, any number of control-loop iterations
completes, and the temperature stays readable. -/
theorem runIterations_total (g : String → List String) (config : Config)
    (fans : List Fan)
    (hcurve : wrapSub config.max_temp config.min_temp ≠ 0)
    (hcpu : lastMatch (g cpuTempPattern) ∉
      fans.map (fun f => pathJoin f.path "_output"))
    (hgpu : gpuTempPath ∉ fans.map (fun f => pathJoin f.path "_output")) :
    ∀ (n : Nat) (fs : FS), (get_current_temp g fs).isSome →
      ∃ fs2, runIterations g config fans n fs = some fs2 ∧
        (get_current_temp g fs2).isSome := by
  intro n
  induction n with
  | zero =>
    intro fs htemp
    exact ⟨fs, rfl, htemp⟩
  | succ n ih =>
    intro fs htemp
    obtain ⟨outs, fs2, hloop, _, hp1, hp2⟩ :=
      loopIteration_all g config hcurve fans fs hcpu hgpu htemp
    have htemp2 : (get_current_temp g fs2).isSome := by
      rw [get_current_temp_congr g hp1 hp2]
      exact htemp
    obtain ⟨fs3, hrun, ht3⟩ := ih fs2 htemp2
    refine ⟨fs3, ?_, ht3⟩
    simp only [runIterations, hloop, hrun]

end LoopLemmas

/-- C9: in the running control loop, `set_speed` failures are absorbed:
after any number `n` of completed iterations, the loop is still alive and
the next pass produces an outcome for every fan in discovery order
(`outs.length = fans.length`), whatever pattern of write failures
occurred — provided the temperature stays readable (sensor paths distinct
from every fan's `_output` file) and the curve divisor is nonzero. -/
theorem loop_absorbs_set_speed_failures (g : String → List String)
    (config : Config) (fans : List Fan) (fs : FS)
    (hcurve : wrapSub config.max_temp config.min_temp ≠ 0)
    (hcpu : lastMatch (g cpuTempPattern) ∉
      fans.map (fun f => pathJoin f.path "_output"))
    (hgpu : gpuTempPath ∉ fans.map (fun f => pathJoin f.path "_output"))
    (htemp : (get_current_temp g fs).isSome) :
    ∀ n : Nat, ∃ fs2, runIterations g config fans n fs = some fs2 ∧
      ∃ outs fs3, loopIteration g config fans fs2 = some (outs, fs3) ∧
        outs.length = fans.length := by
  intro n
  obtain ⟨fs2, hrun, htemp2⟩ :=
    runIterations_total g config fans hcurve hcpu hgpu n fs htemp
  obtain ⟨outs, fs3, hloop, hlen, _, _⟩ :=
    loopIteration_all g config hcurve fans fs2 hcpu hgpu htemp2
  exact ⟨fs2, hrun, outs, fs3, hloop, hlen⟩

/-- C9 witness: two fans, the first of whose `_output` file rejects
writes, still complete two full iterations. -/
theorem loop_absorbs_set_speed_failures_witness :
    (runIterations wGlobC7 defaultConfig [wFanA, wFanB] 2 wFsLoop).isSome =
      true := by
  obtain ⟨fs2, hrun, _⟩ := loop_absorbs_set_speed_failures wGlobC7
    defaultConfig [wFanA, wFanB] wFsLoop (by decide) (by decide) (by decide)
    (by decide) 2
  simp [hrun]

end T2macd
